import Mathlib

/-!
Verification of the stdpopsim catalog/CLI core.

This file embeds the data model and operations of the stdpopsim repository
excerpt (src/BosTau.py and src/stdpopsim/cli.py) in Lean 4 and proves the
frozen claims about it.  Code that lives in the repository but outside the
excerpt (the stdpopsim library proper: `DemographicModel.get_samples`,
`Citation.merge`, `Species.get_contig`, `PiecewiseConstantSize`, the model
lookup) is modelled from the natural-language specification; every such
definition carries a doc comment starting with `Modelled from the spec:`.
All other definitions are direct translations of the Python source.
-/

namespace StdpopsimSpec

/-- Reasons a citation is attached (`stdpopsim.CiteReason`). -/
inductive CiteReason where
  | ASSEMBLY
  | GEN_TIME
  | POP_SIZE
  | DEM_MODEL
deriving DecidableEq

/-- A bibliographic citation: doi (optional), year, author and the set of
reasons it is cited (`stdpopsim.Citation`). -/
structure Citation where
  doi : Option String
  year : String
  author : String
  reasons : Finset CiteReason
deriving DecidableEq

/-- A chromosome: id, length in base pairs, per-base mutation and
recombination rates (`stdpopsim.Chromosome`). -/
structure Chromosome where
  id : String
  length : Nat
  mutation_rate : ℚ
  recombination_rate : ℚ
deriving DecidableEq

/-- A genome: its chromosomes plus rate/assembly citations
(`stdpopsim.Genome`). -/
structure Genome where
  chromosomes : List Chromosome
  assembly_citations : List Citation := []
  mutation_rate_citations : List Citation := []
  recombination_rate_citations : List Citation := []
deriving DecidableEq

/-- A population inside a demographic model (`stdpopsim.Population`):
`allow_samples` defaults to true and `sampling_time` to 0 generations. -/
structure Population where
  id : String
  description : String
  allow_samples : Bool := true
  sampling_time : ℚ := 0
deriving DecidableEq

/-- An initial per-population configuration
(`msprime.PopulationConfiguration`). -/
structure PopulationConfiguration where
  initial_size : ℚ
  growth_rate : ℚ
  metadata : Option Population := none
deriving DecidableEq

/-- A scheduled demographic event (`msprime.PopulationParametersChange`):
at `time` generations ago, the target population's size and/or growth rate
change. -/
structure PopulationParametersChange where
  time : ℚ
  initial_size : Option ℚ := none
  growth_rate : Option ℚ := none
  population_id : Nat
deriving DecidableEq

/-- A demographic model (`stdpopsim.DemographicModel`): ordered populations,
initial configurations, ordered demographic events, optional migration
matrix, and an optional `qc_model` reference marking it quality-controlled. -/
structure DemographicModel where
  id : String
  description : String
  long_description : String
  populations : List Population
  citations : List Citation := []
  generation_time : ℚ
  population_configurations : List PopulationConfiguration
  demographic_events : List PopulationParametersChange := []
  migration_matrix : Option (List (List ℚ)) := none
  qc_model : Option String := none
deriving DecidableEq

/-- A species (`stdpopsim.Species`): id, names, genome, default generation
time and population size with their citations, and its registered
demographic models. -/
structure Species where
  id : String
  name : String
  common_name : String
  genome : Genome
  generation_time : ℚ
  generation_time_citations : List Citation := []
  population_size : ℚ
  population_size_citations : List Citation := []
  demographic_models : List DemographicModel := []
deriving DecidableEq

/-- A sample drawn from a population (`msprime.Sample`): the sampling
population's index and its sampling time in generations. -/
structure Sample where
  population : Nat
  time : ℚ
deriving DecidableEq

/-- The error taxonomy relevant to the claims. -/
inductive ModelError where
  | TooManySamplePopulationsError
deriving DecidableEq

/-- The sampling populations of a model: those with `allow_samples = true`,
in model population order. -/
def DemographicModel.samplingPopulations (m : DemographicModel) : List Population :=
  m.populations.filter fun p => p.allow_samples

/-- `num_sampling_populations`: the count of populations with
`allow_samples = true`. -/
def DemographicModel.num_sampling_populations (m : DemographicModel) : Nat :=
  m.samplingPopulations.length

/-- Helper for `get_samples`: the i-th count produces that many samples
from the i-th sampling population, carrying its sampling time. -/
def mkSamples : Nat → List Nat → List Population → List Sample
  | _, [], _ => []
  | _, _ :: _, [] => []
  | i, n :: cs, p :: ps =>
      List.replicate n { population := i, time := p.sampling_time } ++ mkSamples (i + 1) cs ps

/-- Modelled from the spec: the stdpopsim library's
`DemographicModel.get_samples` is not under src/ (only its CLI caller is).
Spec 4.3/4.5: it maps a flat sequence of counts positionally onto the
model's sampling populations — the i-th count yields samples whose
`population` is i (the index among allow_samples populations) and whose
`time` is that population's sampling_time; it fails with
`TooManySamplePopulationsError` when more counts are supplied than there
are sampling populations; omitted trailing counts default to 0. -/
def get_samples (m : DemographicModel) (counts : List Nat) :
    Except ModelError (List Sample) :=
  if m.num_sampling_populations < counts.length then
    .error ModelError.TooManySamplePopulationsError
  else
    .ok (mkSamples 0 counts m.samplingPopulations)

/-- Modelled from the spec: `Species.get_demographic_model` (library code
not under src/, only its CLI caller is) — lookup of a registered
demographic model by id, spec 4.2 style registry access. -/
def getDemographicModel (species : Species) (model_id : String) :
    Option DemographicModel :=
  species.demographic_models.find? fun m => m.id == model_id

/-! ## Citation merging (spec 4.1) -/

/-- The union of the reason sets of all citations in the list whose doi is
`some d` (the reason set of one doi-group). -/
def reasonsUnion (d : String) : List Citation → Finset CiteReason
  | [] => ∅
  | c :: rest =>
      if c.doi = some d then c.reasons ∪ reasonsUnion d rest
      else reasonsUnion d rest

/-- Modelled from the spec: the stdpopsim library's `Citation.merge` is not
under src/ (only its caller `get_citations` in src/stdpopsim/cli.py is).
Spec 4.1: it groups citations by doi equality — citations without a doi are
never merged with others — unions the reason sets per group, and returns
one representative per doi-group preserving first-seen order. -/
def Citation.merge : List Citation → List Citation
  | [] => []
  | c :: rest =>
    match c.doi with
    | none => c :: Citation.merge rest
    | some d =>
        { c with doi := some d, reasons := c.reasons ∪ reasonsUnion d rest } ::
          Citation.merge (rest.filter fun e => !(decide (e.doi = some d)))
termination_by l => l.length
decreasing_by
  all_goals simp only [List.length_cons]
  · omega
  · exact Nat.lt_succ_of_le (List.length_filter_le _ _)

/-- The distinct dois of a citation list, in first-seen order. -/
def firstSeenDois : List Citation → List String
  | [] => []
  | c :: rest =>
    match c.doi with
    | none => firstSeenDois rest
    | some d => d :: firstSeenDois (rest.filter fun e => !(decide (e.doi = some d)))
termination_by l => l.length
decreasing_by
  all_goals simp only [List.length_cons]
  · omega
  · exact Nat.lt_succ_of_le (List.length_filter_le _ _)

/-! ## The Bos Taurus catalog (src/BosTau.py) -/

/-- The parsed `_chromosome_data` table of src/BosTau.py: 30 chromosomes,
each with uniform per-base mutation and recombination rate 1e-8. -/
def bosTauChromosomes : List Chromosome :=
  [ { id := "chr1", length := 158534110, mutation_rate := 1e-8, recombination_rate := 1e-8 },
    { id := "chr2", length := 136231102, mutation_rate := 1e-8, recombination_rate := 1e-8 },
    { id := "chr3", length := 121005158, mutation_rate := 1e-8, recombination_rate := 1e-8 },
    { id := "chr4", length := 120000601, mutation_rate := 1e-8, recombination_rate := 1e-8 },
    { id := "chr5", length := 120089316, mutation_rate := 1e-8, recombination_rate := 1e-8 },
    { id := "chr6", length := 117806340, mutation_rate := 1e-8, recombination_rate := 1e-8 },
    { id := "chr7", length := 110682743, mutation_rate := 1e-8, recombination_rate := 1e-8 },
    { id := "chr8", length := 113319770, mutation_rate := 1e-8, recombination_rate := 1e-8 },
    { id := "chr9", length := 105454467, mutation_rate := 1e-8, recombination_rate := 1e-8 },
    { id := "chr10", length := 103308737, mutation_rate := 1e-8, recombination_rate := 1e-8 },
    { id := "chr11", length := 106982474, mutation_rate := 1e-8, recombination_rate := 1e-8 },
    { id := "chr12", length := 87216183, mutation_rate := 1e-8, recombination_rate := 1e-8 },
    { id := "chr13", length := 83472345, mutation_rate := 1e-8, recombination_rate := 1e-8 },
    { id := "chr14", length := 82403003, mutation_rate := 1e-8, recombination_rate := 1e-8 },
    { id := "chr15", length := 85007780, mutation_rate := 1e-8, recombination_rate := 1e-8 },
    { id := "chr16", length := 81013979, mutation_rate := 1e-8, recombination_rate := 1e-8 },
    { id := "chr17", length := 73167244, mutation_rate := 1e-8, recombination_rate := 1e-8 },
    { id := "chr18", length := 65820629, mutation_rate := 1e-8, recombination_rate := 1e-8 },
    { id := "chr19", length := 63449741, mutation_rate := 1e-8, recombination_rate := 1e-8 },
    { id := "chr20", length := 71974595, mutation_rate := 1e-8, recombination_rate := 1e-8 },
    { id := "chr21", length := 69862954, mutation_rate := 1e-8, recombination_rate := 1e-8 },
    { id := "chr22", length := 60773035, mutation_rate := 1e-8, recombination_rate := 1e-8 },
    { id := "chr23", length := 52498615, mutation_rate := 1e-8, recombination_rate := 1e-8 },
    { id := "chr24", length := 62317253, mutation_rate := 1e-8, recombination_rate := 1e-8 },
    { id := "chr25", length := 42350435, mutation_rate := 1e-8, recombination_rate := 1e-8 },
    { id := "chr26", length := 51992305, mutation_rate := 1e-8, recombination_rate := 1e-8 },
    { id := "chr27", length := 45612108, mutation_rate := 1e-8, recombination_rate := 1e-8 },
    { id := "chr28", length := 45940150, mutation_rate := 1e-8, recombination_rate := 1e-8 },
    { id := "chr29", length := 51098607, mutation_rate := 1e-8, recombination_rate := 1e-8 },
    { id := "chrX", length := 139009144, mutation_rate := 1e-8, recombination_rate := 1e-8 } ]

/-- `_assembly_citation` of src/BosTau.py. -/
def assemblyCitation : Citation :=
  { doi := some "https://doi.org/10.1093/gigascience/giaa021"
    year := "2020"
    author := "Rosen et al."
    reasons := {CiteReason.ASSEMBLY} }

/-- `_genome` of src/BosTau.py. -/
def bosTauGenome : Genome :=
  { chromosomes := bosTauChromosomes
    assembly_citations := [assemblyCitation] }

/-- `_gen_time_citation` of src/BosTau.py. -/
def genTimeCitation : Citation :=
  { doi := some "https://doi.org/10.1093/molbev/mst125"
    year := "2013"
    author := "MacLeod et al."
    reasons := {CiteReason.GEN_TIME} }

/-- `_pop_size_citation` of src/BosTau.py. -/
def popSizeCitation : Citation :=
  { doi := some "https://doi.org/10.1093/molbev/mst125"
    year := "2013"
    author := "MacLeod et al."
    reasons := {CiteReason.POP_SIZE} }

/-- The single population of the `IonaInferredDemography` model. -/
def ionaPopulation : Population :=
  { id := "FILL ME", description := "FILL ME" }

/-- `_inferred_1_M_13()` of src/BosTau.py: the "IonaInferredDemography"
demographic model — one population, initial size 90 growing at rate 0.0166,
and 14 scheduled growth-rate changes. -/
def inferred_1_M_13 : DemographicModel :=
  { id := "IonaInferredDemography"
    description := "Iona MacLeod's Inferred Demographic Model for Bos Taurus"
    long_description :=
      "The Runs of Homozygosity-based infer of Demography from MacLeod et al. 2013."
    populations := [ionaPopulation]
    citations :=
      [ { doi := some "https://doi.org/10.1093/molbev/mst125"
          year := "2013"
          author := "MacLeod et al."
          reasons := {CiteReason.DEM_MODEL} } ]
    generation_time := 5
    population_configurations :=
      [ { initial_size := 90, growth_rate := 0.0166, metadata := some ionaPopulation } ]
    demographic_events :=
      [ { time := 1, initial_size := some 90, growth_rate := some (-0.095894024), population_id := 0 },
        { time := 4, growth_rate := some (-0.24465639), population_id := 0 },
        { time := 7, growth_rate := some (-0.0560787), population_id := 0 },
        { time := 13, growth_rate := some (-0.1749704), population_id := 0 },
        { time := 19, growth_rate := some (-0.0675775), population_id := 0 },
        { time := 25, growth_rate := some (-0.0022129), population_id := 0 },
        { time := 155, growth_rate := some (-0.0007438), population_id := 0 },
        { time := 455, growth_rate := some (-0.0016824), population_id := 0 },
        { time := 655, growth_rate := some (-0.0006301), population_id := 0 },
        { time := 1755, growth_rate := some (-0.0005945), population_id := 0 },
        { time := 2355, growth_rate := some (-0.0005306), population_id := 0 },
        { time := 3355, growth_rate := some (-0.0000434), population_id := 0 },
        { time := 33155, growth_rate := some (-0.0000), population_id := 0 },
        { time := 933155, growth_rate := some (-0.0), population_id := 0 } ] }

/-- `_species` of src/BosTau.py, after `add_demographic_model` has attached
the `IonaInferredDemography` model. -/
def bosTau : Species :=
  { id := "BosTau"
    name := "Bos Taurus"
    common_name := "Cattle"
    genome := bosTauGenome
    generation_time := 5
    generation_time_citations := [genTimeCitation]
    population_size := 62000
    population_size_citations := [popSizeCitation]
    demographic_models := [inferred_1_M_13] }

/-- The process-wide species registry after src/BosTau.py has run
(`stdpopsim.register_species(_species)`). -/
def registeredSpecies : List Species := [bosTau]

/-! ## Contig resolution -/

/-- A resolved contig: length in base pairs (possibly scaled), per-base
mutation and recombination rates, and an optional genetic map. -/
structure Contig where
  length : ℚ
  mutation_rate : ℚ
  recombination_rate : ℚ
  genetic_map : Option String := none
deriving DecidableEq

/-- The uniform-rate contig derived from one chromosome: the length is the
chromosome's length times the multiplier, the per-base rates are the
chromosome's own. -/
def uniformContig (chrom : Chromosome) (length_multiplier : ℚ) : Contig :=
  { length := (chrom.length : ℚ) * length_multiplier
    mutation_rate := chrom.mutation_rate
    recombination_rate := chrom.recombination_rate
    genetic_map := none }

/-- Modelled from the spec: the stdpopsim library's `Species.get_contig`
is not under src/ (only its CLI caller is).  Spec 4.4, no-genetic-map path:
with a chromosome id, the named chromosome's uniform rates and scaled
length; with no id, the species' first chromosome if the genome has
exactly one chromosome, otherwise an error. -/
def get_contig (species : Species) (chromosome : Option String)
    (length_multiplier : ℚ) : Except String Contig :=
  match chromosome with
  | some cid =>
    match species.genome.chromosomes.find? (fun c => c.id == cid) with
    | some chrom => .ok (uniformContig chrom length_multiplier)
    | none => .error "unknown chromosome"
  | none =>
    match species.genome.chromosomes with
    | [c] => .ok (uniformContig c length_multiplier)
    | _ => .error "chromosome id required"

/-- src/stdpopsim/cli.py `add_simulate_species_parser`: the parser always
runs `set_defaults(chromosome=None)`; the `-c` option — whose argparse
default is `choices[0]`, the first chromosome's id — is registered only
when the genome has more than one chromosome.  `supplied` is the
user-provided `-c` value, `none` when the option was not given. -/
def resolve_chromosome_arg (species : Species) (supplied : Option String) :
    Option String :=
  if 1 < species.genome.chromosomes.length then
    match supplied with
    | some cid => some cid
    | none => (species.genome.chromosomes.map Chromosome.id).head?
  else
    none

/-! ## The CLI simulation runner (src/stdpopsim/cli.py) -/

/-- Modelled from the spec: the stdpopsim library's `PiecewiseConstantSize`
convenience model is not under src/ (only its CLI caller is).  Spec 4.3: a
single-population model with constant size and growth rate 0, used as the
default when no named model is requested. -/
def PiecewiseConstantSize (N : ℚ) : DemographicModel :=
  { id := "PiecewiseConstant"
    description := "Piecewise constant size"
    long_description := ""
    populations := [{ id := "pop0", description := "Generic population" }]
    generation_time := 1
    population_configurations := [{ initial_size := N, growth_rate := 0 }] }

/-- The CLI arguments of one species simulation run that
`run_simulation` consumes (src/stdpopsim/cli.py). -/
structure Args where
  demographic_model : Option String
  samples : List Nat
  chromosome : Option String := none
  genetic_map : Option String := none
  length_multiplier : ℚ := 1
  seed : Option Nat := none
  output : Option String := none
  bibtex_file : Bool := false
deriving DecidableEq

/-- The observable actions of one `run_simulation` call, in program order. -/
inductive Action where
  | exitError (msg : String)
  | writeSummary
  | warnNotQC
  | invokeEngine
  | writeOutput
  | writeCitations
  | writeBibtex
deriving DecidableEq

/-- src/stdpopsim/cli.py `run_simulation`, no-model branch: the piecewise
constant default model at the species' population size, with the species'
generation time and its population-size and generation-time citations
attached. -/
def defaultModel (species : Species) : DemographicModel :=
  let m := PiecewiseConstantSize species.population_size
  { m with
      generation_time := species.generation_time
      citations := m.citations ++ species.population_size_citations ++
        species.generation_time_citations }

/-- src/stdpopsim/cli.py `run_simulation` model selection: no named model
yields the default model, treated as qc-complete; a named model is looked
up (an unknown id exits) and is qc-complete iff its `qc_model` is set. -/
def resolveModel (species : Species) (dm : Option String) :
    Except String (DemographicModel × Bool) :=
  match dm with
  | none => .ok (defaultModel species, true)
  | some mid =>
    match getDemographicModel species mid with
    | none => .error "unknown demographic model"
    | some m => .ok (m, m.qc_model.isSome)

/-- src/stdpopsim/cli.py `run_simulation` as a trace of its observable
actions.  `engineResult` abstracts the engine's `simulate` return value;
`none` signals a dry run.  Exceeding the model's sampling-population count
exits before anything else happens. -/
def run_simulation (species : Species) (args : Args)
    (engineResult : Option Unit) : List Action :=
  match resolveModel species args.demographic_model with
  | .error e => [.exitError e]
  | .ok (model, qc_complete) =>
    if model.num_sampling_populations < args.samples.length then
      [.exitError "Cannot sample from more than num_sampling_populations populations"]
    else
      [.writeSummary]
        ++ (if qc_complete then [] else [.warnNotQC])
        ++ [.invokeEngine]
        ++ (if engineResult.isSome then [.writeOutput] else [])
        ++ (if qc_complete then [.writeCitations] else [])
        ++ (if args.bibtex_file then [.writeBibtex] else [])

/-! ## The sample tally and population lookups of write_simulation_summary
(src/stdpopsim/cli.py) -/

/-- One `sample_counts[s.population] += 1` step: `none` models a Python
IndexError when the index is out of range. -/
def bumpAt : List Nat → Nat → Option (List Nat)
  | [], _ => none
  | x :: xs, 0 => some ((x + 1) :: xs)
  | x :: xs, n + 1 => (bumpAt xs n).map (x :: ·)

/-- The per-sample tally loop of `write_simulation_summary`. -/
def tallyGo : List Sample → List Nat → Option (List Nat)
  | [], acc => some acc
  | s :: rest, acc =>
    match bumpAt acc s.population with
    | none => none
    | some acc' => tallyGo rest acc'

/-- `write_simulation_summary`'s tally: starts from
`[0] * model.num_sampling_populations` and bumps the entry at each
sample's population index. -/
def sampleTally (m : DemographicModel) (samples : List Sample) :
    Option (List Nat) :=
  tallyGo samples (List.replicate m.num_sampling_populations 0)

/-- Sequential `populations[p]` lookups; `none` models an IndexError. -/
def popLookups (pops : List Population) : List Nat → Option (List Population)
  | [] => some []
  | p :: rest =>
    match pops.get? p with
    | none => none
    | some pop => (popLookups pops rest).map (pop :: ·)

/-- `write_simulation_summary`'s `model.populations[p]` accesses for
`p in range(0, model.num_sampling_populations)`. -/
def summaryPopLookups (m : DemographicModel) : Option (List Population) :=
  popLookups m.populations (List.range m.num_sampling_populations)

/-! ## Concrete fixtures used by witnesses and counterexamples -/

/-- A two-population model whose non-sampling population comes first;
probes the sampling-population prefix property of C10. -/
def mixedModel : DemographicModel :=
  { id := "mixed"
    description := "two populations, only the second samplable"
    long_description := ""
    populations :=
      [ { id := "ghost", description := "unsampled", allow_samples := false },
        { id := "obs", description := "sampled" } ]
    generation_time := 1
    population_configurations :=
      [ { initial_size := 100, growth_rate := 0 },
        { initial_size := 100, growth_rate := 0 } ] }

/-- A minimal species whose genome has exactly one chromosome; exercises
the CLI branch in which the `-c` option is not registered. -/
def oneChromSpecies : Species :=
  { id := "OneChrom"
    name := "One Chromosome"
    common_name := "onechrom"
    genome :=
      { chromosomes :=
          [ { id := "chr1", length := 1000, mutation_rate := 1e-8,
              recombination_rate := 1e-8 } ] }
    generation_time := 1
    population_size := 100 }

/-- A CLI invocation of BosTau naming the IonaInferredDemography model. -/
def ionaArgs : Args :=
  { demographic_model := some "IonaInferredDemography", samples := [10] }

/-- A CLI invocation of BosTau with no named model. -/
def defaultArgs : Args :=
  { demographic_model := none, samples := [2] }

/-! ## Theorems: citation merging -/

/-- Membership in `firstSeenDois`: a doi appears there exactly when some
citation of the list carries it. -/
theorem mem_firstSeenDois_iff (d : String) :
    ∀ l : List Citation, d ∈ firstSeenDois l ↔ ∃ c ∈ l, c.doi = some d := by
  intro l
  induction l using firstSeenDois.induct with
  | case1 => simp [firstSeenDois]
  | case2 c rest h ih =>
    simp only [firstSeenDois, h, ih, List.mem_cons]
    constructor
    · rintro ⟨e, he, hd⟩
      exact ⟨e, Or.inr he, hd⟩
    · rintro ⟨e, he | he, hd⟩
      · rw [he] at hd
        rw [h] at hd
        exact absurd hd (by simp)
      · exact ⟨e, he, hd⟩
  | case3 c rest d' h ih =>
    simp only [firstSeenDois, h, List.mem_cons, ih, List.mem_filter, Bool.not_eq_true',
      decide_eq_false_iff_not]
    constructor
    · rintro (rfl | ⟨e, ⟨he, _⟩, hd⟩)
      · exact ⟨c, Or.inl rfl, h⟩
      · exact ⟨e, Or.inr he, hd⟩
    · rintro ⟨e, he | he, hd⟩
      · rw [he] at hd
        rw [h] at hd
        exact Or.inl (Option.some_injective _ hd).symm
      · by_cases hdd : d = d'
        · exact Or.inl hdd
        · refine Or.inr ⟨e, ⟨he, ?_⟩, hd⟩
          rw [hd]
          simpa using hdd

/-- The first-seen doi list never repeats a doi. -/
theorem firstSeenDois_nodup : ∀ l : List Citation, (firstSeenDois l).Nodup := by
  intro l
  induction l using firstSeenDois.induct with
  | case1 => simp [firstSeenDois]
  | case2 c rest h ih => simpa only [firstSeenDois, h] using ih
  | case3 c rest d h ih =>
    simp only [firstSeenDois, h, List.nodup_cons]
    refine ⟨fun hmem => ?_, ih⟩
    obtain ⟨e, he, hd⟩ := (mem_firstSeenDois_iff d _).mp hmem
    rw [List.mem_filter] at he
    rw [hd] at he
    simp at he

/-- Filtering by a predicate that keeps every citation of doi `d` does not
change that doi-group's reason union. -/
theorem reasonsUnion_filter (d : String) (p : Citation → Bool)
    (hp : ∀ e : Citation, e.doi = some d → p e = true) :
    ∀ l : List Citation, reasonsUnion d (l.filter p) = reasonsUnion d l := by
  intro l
  induction l with
  | nil => rfl
  | cons c rest ih =>
    by_cases hc : c.doi = some d
    · simp [List.filter_cons, hp c hc, reasonsUnion, hc, ih]
    · cases hpc : p c
      · simp [List.filter_cons, hpc, reasonsUnion, hc, ih]
      · simp [List.filter_cons, hpc, reasonsUnion, hc, ih]

/-- Every doi present in the merged list was present in the input. -/
theorem doi_of_mem_merge :
    ∀ l : List Citation, ∀ c ∈ Citation.merge l, ∀ d, c.doi = some d →
      ∃ e ∈ l, e.doi = some d := by
  intro l
  induction l using Citation.merge.induct with
  | case1 => simp [Citation.merge]
  | case2 c rest h ih =>
    simp only [Citation.merge, h, List.mem_cons]
    rintro e (rfl | he) d hd
    · rw [h] at hd
      exact absurd hd (by simp)
    · obtain ⟨e', he', hd'⟩ := ih e he d hd
      exact ⟨e', Or.inr he', hd'⟩
  | case3 c rest d h ih =>
    simp only [Citation.merge, h, List.mem_cons]
    rintro e (rfl | he) d' hd'
    · obtain rfl : d = d' := by simpa using hd'
      exact ⟨c, Or.inl rfl, h⟩
    · obtain ⟨e', he', hd''⟩ := ih e he d' hd'
      rw [List.mem_filter] at he'
      exact ⟨e', Or.inr he'.1, hd''⟩

/-- The merged list's dois are exactly the input's distinct dois in
first-seen order. -/
theorem merge_filterMap_doi :
    ∀ l : List Citation, (Citation.merge l).filterMap Citation.doi = firstSeenDois l := by
  intro l
  induction l using Citation.merge.induct with
  | case1 => simp [Citation.merge, firstSeenDois]
  | case2 c rest h ih =>
    simp [Citation.merge, firstSeenDois, h, List.filterMap_cons, ih]
  | case3 c rest d h ih =>
    simp [Citation.merge, firstSeenDois, h, List.filterMap_cons, ih]

/-- Citations without a doi pass through `merge` unchanged, in order. -/
theorem merge_filter_none :
    ∀ l : List Citation,
      (Citation.merge l).filter (fun c => decide (c.doi = none)) =
        l.filter (fun c => decide (c.doi = none)) := by
  intro l
  induction l using Citation.merge.induct with
  | case1 => simp [Citation.merge]
  | case2 c rest h ih =>
    simp [Citation.merge, h, List.filter_cons, ih]
  | case3 c rest d h ih =>
    have hsub : ∀ l' : List Citation,
        (l'.filter fun e => !(decide (e.doi = some d))).filter
            (fun c => decide (c.doi = none)) =
          l'.filter (fun c => decide (c.doi = none)) := by
      intro l'
      induction l' with
      | nil => rfl
      | cons e rest' ih' =>
        by_cases he : e.doi = none
        · have : ¬ e.doi = some d := by rw [he]; simp
          simp [List.filter_cons, he, this, ih']
        · by_cases hed : e.doi = some d
          · simp [List.filter_cons, he, hed, ih']
          · simp [List.filter_cons, he, hed, ih']
    simp [Citation.merge, h, List.filter_cons, ih, hsub]

/-- Each merged representative carries the union of its doi-group's
reason sets. -/
theorem merge_reasons :
    ∀ l : List Citation, ∀ c ∈ Citation.merge l, ∀ d, c.doi = some d →
      c.reasons = reasonsUnion d l := by
  intro l
  induction l using Citation.merge.induct with
  | case1 => simp [Citation.merge]
  | case2 c rest h ih =>
    simp only [Citation.merge, h, List.mem_cons]
    rintro e (rfl | he) d hd
    · rw [h] at hd
      exact absurd hd (by simp)
    · rw [ih e he d hd]
      simp only [reasonsUnion]
      rw [if_neg (by rw [h]; simp)]
  | case3 c rest d h ih =>
    simp only [Citation.merge, h, List.mem_cons]
    rintro e (rfl | he) d' hd'
    · obtain rfl : d = d' := by simpa using hd'
      show c.reasons ∪ reasonsUnion d rest = reasonsUnion d (c :: rest)
      simp only [reasonsUnion, if_pos h]
    · have hne : e.doi ≠ some d := by
        intro hcontra
        obtain ⟨e', he', hd''⟩ := doi_of_mem_merge _ e he d hcontra
        rw [List.mem_filter] at he'
        rw [hd''] at he'
        simp at he'
      have hdd : d' ≠ d := by
        intro hc
        rw [hc] at hd'
        exact hne hd'
      have hp : ∀ e' : Citation, e'.doi = some d' →
          (!(decide (e'.doi = some d))) = true := by
        intro e' he'
        rw [he']
        simpa using fun hc => hdd (Option.some_injective _ hc)
      rw [ih e he d' hd', reasonsUnion_filter d' _ hp rest]
      simp only [reasonsUnion]
      rw [if_neg (by rw [h]; simpa using fun hc => hdd (Option.some_injective _ hc).symm)]

/-- C3: for every finite input sequence of Citations, `merge` groups the
citations by doi equality (citations without a doi are never merged with
any other citation), returns exactly one representative per doi-group
whose reason set is the union of the group's reason sets, and preserves
the first-seen order of distinct dois; `merge` is a pure function of the
input list, hence deterministic for a deterministic input order. -/
theorem C3_citation_merge_spec (cs : List Citation) :
    (Citation.merge cs).filterMap Citation.doi = firstSeenDois cs
  ∧ ((Citation.merge cs).filterMap Citation.doi).Nodup
  ∧ (Citation.merge cs).filter (fun c => decide (c.doi = none)) =
      cs.filter (fun c => decide (c.doi = none))
  ∧ (∀ c ∈ Citation.merge cs, ∀ d, c.doi = some d → c.reasons = reasonsUnion d cs)
  ∧ (∀ d, (∃ c ∈ Citation.merge cs, c.doi = some d) ↔ ∃ c ∈ cs, c.doi = some d) := by
  refine ⟨merge_filterMap_doi cs, ?_, merge_filter_none cs, merge_reasons cs, ?_⟩
  · rw [merge_filterMap_doi cs]
    exact firstSeenDois_nodup cs
  · intro d
    constructor
    · rintro ⟨c, hc, hd⟩
      exact doi_of_mem_merge cs c hc d hd
    · intro hex
      have hmem : d ∈ firstSeenDois cs := (mem_firstSeenDois_iff d cs).mpr hex
      rw [← merge_filterMap_doi cs, List.mem_filterMap] at hmem
      obtain ⟨c, hc, hd⟩ := hmem
      exact ⟨c, hc, hd⟩

/-- C1: the BosTau catalog registers the species "Bos Taurus" with a genome
of exactly 30 chromosomes; its "IonaInferredDemography" model has exactly
one population, an initial configuration with initial_size 90 and
growth_rate 0.0166, and 14 scheduled demographic events; `get_samples(10)`
returns exactly 10 samples, every one with population 0 and time 0, and
`get_samples(1, 1)` fails with `TooManySamplePopulationsError`. -/
theorem C1_bosTau_catalog_end_to_end :
    bosTau ∈ registeredSpecies
  ∧ bosTau.name = "Bos Taurus"
  ∧ bosTau.genome.chromosomes.length = 30
  ∧ getDemographicModel bosTau "IonaInferredDemography" = some inferred_1_M_13
  ∧ inferred_1_M_13.populations.length = 1
  ∧ (inferred_1_M_13.population_configurations.map fun c =>
      (c.initial_size, c.growth_rate)) = [(90, 0.0166)]
  ∧ inferred_1_M_13.demographic_events.length = 14
  ∧ get_samples inferred_1_M_13 [10] =
      .ok (List.replicate 10 { population := 0, time := 0 })
  ∧ get_samples inferred_1_M_13 [1, 1] =
      .error ModelError.TooManySamplePopulationsError := by
  refine ⟨List.mem_singleton.mpr rfl, rfl, rfl, rfl, rfl, rfl, rfl, rfl, rfl⟩

/-- C8: the IonaInferredDemography model satisfies the DemographicModel
invariant — there is exactly one population and one initial configuration,
every population index referenced by an event is below the number of
populations, every event time is non-negative, and the event times are
supplied in non-decreasing order, namely
1, 4, 7, 13, 19, 25, 155, 455, 655, 1755, 2355, 3355, 33155, 933155. -/
theorem C8_iona_model_invariant :
    inferred_1_M_13.populations.length = 1
  ∧ inferred_1_M_13.population_configurations.length = 1
  ∧ (∀ e ∈ inferred_1_M_13.demographic_events,
      e.population_id < inferred_1_M_13.populations.length)
  ∧ (∀ e ∈ inferred_1_M_13.demographic_events, 0 ≤ e.time)
  ∧ inferred_1_M_13.demographic_events.map PopulationParametersChange.time =
      [1, 4, 7, 13, 19, 25, 155, 455, 655, 1755, 2355, 3355, 33155, 933155]
  ∧ List.Pairwise (· ≤ ·)
      (inferred_1_M_13.demographic_events.map PopulationParametersChange.time) := by
  refine ⟨rfl, rfl, by decide, by decide, by decide, by decide⟩

/-! ## Theorems: sample-count reconciliation -/

/-- Zero counts produce no samples. -/
theorem mkSamples_replicate_zero :
    ∀ (k i : Nat) (ps : List Population),
      mkSamples i (List.replicate k 0) ps = [] := by
  intro k
  induction k with
  | zero => intro i ps; rfl
  | succ n ih =>
    intro i ps
    cases ps with
    | nil => rfl
    | cons p ps' => simp [List.replicate_succ, mkSamples, ih]

/-- Padding the counts with trailing zeros leaves the samples unchanged. -/
theorem mkSamples_append_zeros (k : Nat) :
    ∀ (cs : List Nat) (i : Nat) (ps : List Population),
      mkSamples i (cs ++ List.replicate k 0) ps = mkSamples i cs ps := by
  intro cs
  induction cs with
  | nil =>
    intro i ps
    simp only [List.nil_append, mkSamples_replicate_zero]
    rfl
  | cons n cs' ih =>
    intro i ps
    cases ps with
    | nil => rfl
    | cons p ps' => simp [mkSamples, ih]

/-- Every produced sample's population index lies in `[i, i + |counts|)`. -/
theorem mem_mkSamples_population_lt :
    ∀ (cs : List Nat) (i : Nat) (ps : List Population),
      ∀ s ∈ mkSamples i cs ps, i ≤ s.population ∧ s.population < i + cs.length := by
  intro cs
  induction cs with
  | nil => intro i ps s hs; simp [mkSamples] at hs
  | cons n cs' ih =>
    intro i ps s hs
    cases ps with
    | nil => simp [mkSamples] at hs
    | cons p ps' =>
      simp only [mkSamples, List.mem_append] at hs
      rcases hs with hs | hs
      · obtain rfl := List.eq_of_mem_replicate hs
        simp only [List.length_cons]
        omega
      · obtain ⟨h1, h2⟩ := ih (i + 1) ps' s hs
        simp only [List.length_cons]
        omega

/-- The sampling populations are a sublist of the populations, so their
count never exceeds the population count. -/
theorem num_sampling_le_populations (m : DemographicModel) :
    m.num_sampling_populations ≤ m.populations.length :=
  List.length_filter_le _ _

/-- C2: for every demographic model and every sequence of counts, more
counts than `num_sampling_populations` makes `get_samples` fail with
`TooManySamplePopulationsError`, and any CLI run that resolves to this
model with those counts terminates before any engine invocation; with at
most `num_sampling_populations` counts, the omitted trailing counts are
treated as 0. -/
theorem C2_too_many_sample_populations (m : DemographicModel) (counts : List Nat) :
    (m.num_sampling_populations < counts.length →
        get_samples m counts = .error ModelError.TooManySamplePopulationsError
      ∧ ∀ (species : Species) (args : Args) (engineResult : Option Unit) (qc : Bool),
          resolveModel species args.demographic_model = .ok (m, qc) →
          args.samples = counts →
          Action.invokeEngine ∉ run_simulation species args engineResult)
  ∧ (counts.length ≤ m.num_sampling_populations →
      get_samples m
          (counts ++ List.replicate (m.num_sampling_populations - counts.length) 0)
        = get_samples m counts) := by
  constructor
  · intro hlt
    constructor
    · simp [get_samples, hlt]
    · intro species args engineResult qc hres hsamp
      simp only [run_simulation, hres, hsamp, if_pos hlt]
      simp
  · intro hle
    have hlen : (counts ++
        List.replicate (m.num_sampling_populations - counts.length) 0).length =
          m.num_sampling_populations := by
      simp [List.length_append, List.length_replicate]
      omega
    simp only [get_samples, hlen, lt_irrefl, if_neg, if_false,
      if_neg (Nat.not_lt.mpr hle)]
    rw [mkSamples_append_zeros]

/-- Witness for C2 at the IonaInferredDemography model: two counts exceed
its single sampling population, and padding an empty count list with one
zero changes nothing. -/
theorem C2_too_many_sample_populations_witness :
    get_samples inferred_1_M_13 [1, 1] =
        .error ModelError.TooManySamplePopulationsError
  ∧ get_samples inferred_1_M_13 ([] ++ List.replicate 1 0) =
      get_samples inferred_1_M_13 [] := by
  constructor
  · exact ((C2_too_many_sample_populations inferred_1_M_13 [1, 1]).1 (by decide)).1
  · exact (C2_too_many_sample_populations inferred_1_M_13 []).2 (by decide)

/-! ## Theorems: write_simulation_summary indexing safety -/

/-- A bump at an in-range index succeeds. -/
theorem bumpAt_isSome_of_lt :
    ∀ (l : List Nat) (i : Nat), i < l.length → (bumpAt l i).isSome = true := by
  intro l
  induction l with
  | nil => intro i hi; simp at hi
  | cons x xs ih =>
    intro i hi
    cases i with
    | zero => rfl
    | succ n =>
      simp only [bumpAt, Option.isSome_map']
      exact ih n (by simpa using hi)

/-- A successful bump preserves the tally's length. -/
theorem bumpAt_length :
    ∀ (l : List Nat) (i : Nat) (l' : List Nat),
      bumpAt l i = some l' → l'.length = l.length := by
  intro l
  induction l with
  | nil => intro i l' h; simp [bumpAt] at h
  | cons x xs ih =>
    intro i l' h
    cases i with
    | zero =>
      cases h
      rfl
    | succ n =>
      simp only [bumpAt, Option.map_eq_some'] at h
      obtain ⟨xs', hxs', rfl⟩ := h
      simp [ih n xs' hxs']

/-- The tally loop succeeds whenever every sample's population index is
within the tally's range. -/
theorem tallyGo_isSome :
    ∀ (samples : List Sample) (acc : List Nat),
      (∀ s ∈ samples, s.population < acc.length) →
      (tallyGo samples acc).isSome = true := by
  intro samples
  induction samples with
  | nil => intro acc _; rfl
  | cons s rest ih =>
    intro acc hbound
    have hs : s.population < acc.length := hbound s (List.mem_cons_self _ _)
    obtain ⟨acc', hacc'⟩ := Option.isSome_iff_exists.mp (bumpAt_isSome_of_lt acc s.population hs)
    simp only [tallyGo, hacc']
    refine ih acc' fun s' hs' => ?_
    rw [bumpAt_length acc s.population acc' hacc']
    exact hbound s' (List.mem_cons_of_mem _ hs')

/-- The lookup loop succeeds whenever every index is within range. -/
theorem popLookups_isSome (pops : List Population) :
    ∀ idxs : List Nat, (∀ p ∈ idxs, p < pops.length) →
      (popLookups pops idxs).isSome = true := by
  intro idxs
  induction idxs with
  | nil => intro _; rfl
  | cons p rest ih =>
    intro hbound
    have hp : p < pops.length := hbound p (List.mem_cons_self _ _)
    cases hpop : pops.get? p with
    | none =>
      rw [List.get?_eq_none] at hpop
      omega
    | some pop =>
      simp only [popLookups, hpop, Option.isSome_map']
      exact ih fun p' hp' => hbound p' (List.mem_cons_of_mem _ hp')

/-- C10 (amended): for every model and every sample list produced by
`get_samples` with at most `num_sampling_populations` counts, each sample's
population index is strictly below `num_sampling_populations`, and
`num_sampling_populations` never exceeds the number of populations, so the
per-population count tally and the `populations[p]` lookups in
`write_simulation_summary` never index out of bounds.  (The claim's further
assertion that the sampling populations are the first
`num_sampling_populations` entries of the population sequence fails for
models whose non-sampling populations precede sampling ones; see the
counterexample.) -/
theorem C10_summary_indexing_safe (m : DemographicModel) (counts : List Nat)
    (samples : List Sample)
    (h : get_samples m counts = .ok samples) :
    (∀ s ∈ samples, s.population < m.num_sampling_populations)
  ∧ m.num_sampling_populations ≤ m.populations.length
  ∧ (sampleTally m samples).isSome = true
  ∧ (summaryPopLookups m).isSome = true := by
  rw [get_samples] at h
  split at h
  · exact absurd h (by simp)
  · rename_i hnlt
    have hle : counts.length ≤ m.num_sampling_populations := Nat.not_lt.mp hnlt
    obtain rfl : mkSamples 0 counts m.samplingPopulations = samples := by
      simpa using h
    have hbound : ∀ s ∈ mkSamples 0 counts m.samplingPopulations,
        s.population < m.num_sampling_populations := by
      intro s hs
      obtain ⟨_, h2⟩ := mem_mkSamples_population_lt counts 0 m.samplingPopulations s hs
      omega
    refine ⟨hbound, num_sampling_le_populations m, ?_, ?_⟩
    · refine tallyGo_isSome _ _ fun s hs => ?_
      rw [List.length_replicate]
      exact hbound s hs
    · refine popLookups_isSome _ _ fun p hp => ?_
      rw [List.mem_range] at hp
      have := num_sampling_le_populations m
      omega

/-- C10 counterexample: in the two-population model whose non-sampling
population comes first, `get_samples` succeeds with one count, yet the
sampling populations are not the first `num_sampling_populations` entries
of the model's population sequence. -/
theorem C10_counterexample :
    get_samples mixedModel [1] = .ok [{ population := 0, time := 0 }]
  ∧ mixedModel.samplingPopulations ≠
      mixedModel.populations.take mixedModel.num_sampling_populations := by
  exact ⟨rfl, by decide⟩

/-- Witness for C10 at the IonaInferredDemography model with ten samples. -/
theorem C10_summary_indexing_safe_witness :
    (∀ s ∈ List.replicate 10 (Sample.mk 0 0),
      s.population < inferred_1_M_13.num_sampling_populations)
  ∧ (sampleTally inferred_1_M_13
      (List.replicate 10 (Sample.mk 0 0))).isSome = true := by
  have h := C10_summary_indexing_safe inferred_1_M_13 [10]
    (List.replicate 10 (Sample.mk 0 0)) rfl
  exact ⟨h.1, h.2.2.1⟩

/-! ## Theorems: the CLI runner -/

/-- On the non-exiting path, `run_simulation` produces its fixed action
sequence, with the warning, output and citation steps gated as in the
source. -/
theorem run_simulation_eq (species : Species) (args : Args)
    (engineResult : Option Unit) (model : DemographicModel) (qc : Bool)
    (hres : resolveModel species args.demographic_model = .ok (model, qc))
    (hlen : args.samples.length ≤ model.num_sampling_populations) :
    run_simulation species args engineResult =
      [Action.writeSummary]
        ++ (if qc then [] else [Action.warnNotQC])
        ++ [Action.invokeEngine]
        ++ (if engineResult.isSome then [Action.writeOutput] else [])
        ++ (if qc then [Action.writeCitations] else [])
        ++ (if args.bibtex_file then [Action.writeBibtex] else []) := by
  simp only [run_simulation, hres]
  rw [if_neg (by omega)]

/-- C4: whenever the selected model is not quality-controlled the run emits
a warning but still invokes the engine (the condition never blocks
execution); the citation request is written exactly for qc-complete
models (it is suppressed for the rest); and a run with no named model is
treated as qc-complete. -/
theorem C4_qc_warning_never_blocks (species : Species) (args : Args)
    (engineResult : Option Unit) (model : DemographicModel) (qc : Bool)
    (hres : resolveModel species args.demographic_model = .ok (model, qc))
    (hlen : args.samples.length ≤ model.num_sampling_populations) :
    (Action.warnNotQC ∈ run_simulation species args engineResult ↔ qc = false)
  ∧ Action.invokeEngine ∈ run_simulation species args engineResult
  ∧ (Action.writeCitations ∈ run_simulation species args engineResult ↔ qc = true)
  ∧ (args.demographic_model = none → qc = true) := by
  rw [run_simulation_eq species args engineResult model qc hres hlen]
  refine ⟨?_, ?_, ?_, ?_⟩
  · cases qc <;> cases engineResult <;> cases hb : args.bibtex_file <;> simp
  · cases qc <;> cases engineResult <;> cases hb : args.bibtex_file <;> simp
  · cases qc <;> cases engineResult <;> cases hb : args.bibtex_file <;> simp
  · intro hnone
    rw [hnone] at hres
    simp only [resolveModel, Except.ok.injEq, Prod.mk.injEq] at hres
    exact hres.2.symm

/-- Witness for C4: the IonaInferredDemography model has no qc_model, so a
BosTau run naming it warns, still invokes the engine, and suppresses the
citation request. -/
theorem C4_qc_warning_never_blocks_witness :
    Action.warnNotQC ∈ run_simulation bosTau ionaArgs (some ())
  ∧ Action.invokeEngine ∈ run_simulation bosTau ionaArgs (some ())
  ∧ Action.writeCitations ∉ run_simulation bosTau ionaArgs (some ()) := by
  have h := C4_qc_warning_never_blocks bosTau ionaArgs (some ())
    inferred_1_M_13 false rfl (by decide)
  refine ⟨h.1.mpr rfl, h.2.1, fun hc => ?_⟩
  exact absurd (h.2.2.1.mp hc) (by decide)

/-- C6: on every non-exiting run, the output-writing step happens exactly
when the engine's simulate call returned a tree sequence; a `None` result
(dry run) skips it. -/
theorem C6_dry_run_skips_output (species : Species) (args : Args)
    (engineResult : Option Unit) (model : DemographicModel) (qc : Bool)
    (hres : resolveModel species args.demographic_model = .ok (model, qc))
    (hlen : args.samples.length ≤ model.num_sampling_populations) :
    Action.writeOutput ∈ run_simulation species args engineResult ↔
      engineResult.isSome = true := by
  rw [run_simulation_eq species args engineResult model qc hres hlen]
  cases qc <;> cases engineResult <;> cases hb : args.bibtex_file <;> simp

/-- Witness for C6 on a default-model BosTau run: an engine result is
written out, a dry run is not. -/
theorem C6_dry_run_skips_output_witness :
    Action.writeOutput ∈ run_simulation bosTau defaultArgs (some ())
  ∧ Action.writeOutput ∉ run_simulation bosTau defaultArgs none := by
  have h1 := C6_dry_run_skips_output bosTau defaultArgs (some ())
    (defaultModel bosTau) true rfl (by decide)
  have h2 := C6_dry_run_skips_output bosTau defaultArgs none
    (defaultModel bosTau) true rfl (by decide)
  refine ⟨h1.mpr rfl, fun hc => ?_⟩
  exact absurd (h2.mp hc) (by decide)

/-- C7: a run with no named model uses the single-population
piecewise-constant convenience model: constant size equal to the species'
population_size with growth rate 0 and no demographic events, its
generation_time set to the species' generation_time, and the species'
population-size and generation-time citations attached. -/
theorem C7_default_model_shape (species : Species) :
    resolveModel species none = .ok (defaultModel species, true)
  ∧ (defaultModel species).populations.length = 1
  ∧ (defaultModel species).population_configurations =
      [{ initial_size := species.population_size, growth_rate := 0 }]
  ∧ (defaultModel species).demographic_events = []
  ∧ (defaultModel species).generation_time = species.generation_time
  ∧ (∀ c ∈ species.population_size_citations, c ∈ (defaultModel species).citations)
  ∧ (∀ c ∈ species.generation_time_citations, c ∈ (defaultModel species).citations) := by
  refine ⟨rfl, rfl, rfl, rfl, rfl, ?_, ?_⟩
  · intro c hc
    simp only [defaultModel, PiecewiseConstantSize, List.nil_append, List.mem_append]
    exact Or.inl hc
  · intro c hc
    simp only [defaultModel, PiecewiseConstantSize, List.nil_append, List.mem_append]
    exact Or.inr hc

/-! ## Theorems: contig resolution -/

/-- C5 counterexample: BosTau's genome has 30 chromosomes — more than one,
and not exactly one — yet when no chromosome id is supplied the CLI does
not require one: the chromosome defaults to the first chromosome "chr1"
and contig resolution succeeds. -/
theorem C5_counterexample :
    bosTau.genome.chromosomes.length = 30
  ∧ resolve_chromosome_arg bosTau none = some "chr1"
  ∧ get_contig bosTau (resolve_chromosome_arg bosTau none) 1 =
      .ok (uniformContig
        { id := "chr1", length := 158534110, mutation_rate := 1e-8,
          recombination_rate := 1e-8 } 1) := by
  exact ⟨rfl, rfl, rfl⟩

/-- C5 (amended): when no chromosome id is supplied, the CLI defaults the
chromosome to the species' first chromosome whenever the genome has more
than one chromosome; when the genome has exactly one chromosome the `-c`
option is not registered, the CLI passes None, and contig resolution falls
back to that single chromosome — a chromosome id is never required. -/
theorem C5_chromosome_default (species : Species) (mult : ℚ) :
    (1 < species.genome.chromosomes.length →
      resolve_chromosome_arg species none =
        (species.genome.chromosomes.map Chromosome.id).head?)
  ∧ (∀ chrom : Chromosome, species.genome.chromosomes = [chrom] →
      resolve_chromosome_arg species none = none
      ∧ get_contig species (resolve_chromosome_arg species none) mult =
          .ok (uniformContig chrom mult)) := by
  constructor
  · intro h
    simp [resolve_chromosome_arg, h]
  · intro chrom hone
    have hlen : ¬ 1 < species.genome.chromosomes.length := by
      rw [hone]
      simp
    constructor
    · simp [resolve_chromosome_arg, hlen]
    · simp [resolve_chromosome_arg, hlen, get_contig, hone]

/-- Witness for C5: BosTau (30 chromosomes) defaults to "chr1"; the
single-chromosome fixture species passes None and resolves to its only
chromosome. -/
theorem C5_chromosome_default_witness :
    resolve_chromosome_arg bosTau none = some "chr1"
  ∧ resolve_chromosome_arg oneChromSpecies none = none
  ∧ get_contig oneChromSpecies (resolve_chromosome_arg oneChromSpecies none) 1 =
      .ok (uniformContig
        { id := "chr1", length := 1000, mutation_rate := 1e-8,
          recombination_rate := 1e-8 } 1) := by
  have h1 := (C5_chromosome_default bosTau 1).1 (by decide)
  have h2 := (C5_chromosome_default oneChromSpecies 1).2
    { id := "chr1", length := 1000, mutation_rate := 1e-8,
      recombination_rate := 1e-8 } rfl
  exact ⟨h1.trans rfl, h2.1, h2.2⟩

/-- C9: for every species, chromosome and length multiplier in
\x7b0.5, 1, 2\x7d, the contig produced by contig resolution has length
exactly the chromosome's length times the multiplier, and the multiplier
leaves the per-base mutation and recombination rates unchanged. -/
theorem C9_length_multiplier_exact (species : Species) (cid : String)
    (chrom : Chromosome) (mult : ℚ)
    (hfind : species.genome.chromosomes.find? (fun c => c.id == cid) = some chrom)
    (_hmult : mult = 1/2 ∨ mult = 1 ∨ mult = 2) :
    get_contig species (some cid) mult =
      .ok { length := (chrom.length : ℚ) * mult
            mutation_rate := chrom.mutation_rate
            recombination_rate := chrom.recombination_rate
            genetic_map := none } := by
  simp [get_contig, hfind, uniformContig]

/-- Witness for C9: BosTau chr3 at multiplier one half. -/
theorem C9_length_multiplier_exact_witness :
    get_contig bosTau (some "chr3") (1/2) =
      .ok { length := ((121005158 : Nat) : ℚ) * (1/2)
            mutation_rate := 1e-8
            recombination_rate := 1e-8
            genetic_map := none } := by
  exact C9_length_multiplier_exact bosTau "chr3"
    { id := "chr3", length := 121005158, mutation_rate := 1e-8,
      recombination_rate := 1e-8 } (1/2) rfl (Or.inl rfl)

end StdpopsimSpec
